import Mathlib

/-!
Formal model of the ASCII-Unicode Diacritics Analyzer Tool
(src/LD-PDP-ASCII-Unicode-Diacritics-Analyzer-Tool.py).

Python strings are modelled as lists of Unicode scalar values (`List Nat`).
The Python `unicodedata` module is an external oracle; it is modelled as a
structure `UnicodeDB` of the three lookups the analyzer uses:
`unicodedata.name` (with its caller-supplied default), `unicodedata.normalize
-- NFD on a single character, and `unicodedata.category`.  The
`unicodedata.decomposition` string is also stored by the program (column
`decomposition` of the characters table) but never read again, so it is
carried as an oracle field `decompRaw` purely for record fidelity.
All analyzer functions below are translated line by line from the Python
source; line numbers in comments refer to the source file.
-/

/-- Code points of a Lean string literal, used to write Python string
constants as lists of scalar values. -/
def strCodes (s : String) : List Nat := s.toList.map (fun c => c.toNat)

/-- The Python constant `ASCII_LETTERS` (source line 70). -/
def ASCII_LETTERS : List Nat :=
  strCodes ("abcdefghijklmnopqrstuvwxyzABCDEFGHIJKLMNOPQRSTUVWXYZ")

def sLATIN : List Nat := strCodes ("LATIN")
def sUNKNOWN : List Nat := strCodes ("UNKNOWN")
def sNbsp : List Nat := strCodes ("&nbsp;")
def sSep : List Nat := strCodes (" &nbsp;&nbsp;+&nbsp;&nbsp; ")
def sParenOpen : List Nat := strCodes (" (")
def sCommaSp : List Nat := strCodes (", ")
def sParenClose : List Nat := strCodes (")")
def sUplus : List Nat := strCodes ("U+")

/-- Python substring test `pat in s` for strings: some contiguous slice of
`s` equals `pat`. -/
def pyContains (s pat : List Nat) : Bool :=
  (List.range (s.length + 1)).any (fun i => ((s.drop i).take pat.length) == pat)

/-- Python `s.startswith(p)` for strings. -/
def pyStartsWith (s p : List Nat) : Bool := s.take p.length == p

/-- Oracle for the `unicodedata` lookups used by the program.  `uname c` is
`none` exactly when the Unicode database has no canonical name for `c`
(Python `unicodedata.name(chr(c), default)` then returns the default). -/
structure UnicodeDB where
  uname : Nat → Option (List Nat)
  decompRaw : Nat → List Nat
  nfd : Nat → List Nat
  category : Nat → List Nat

/-- Source line 183 etc.: `unicodedata.category(c).startswith('M')`. -/
def isMark (db : UnicodeDB) (c : Nat) : Bool :=
  pyStartsWith (db.category c) (strCodes ("M"))

/-- One row of the in-memory `characters` table (source lines 118-127).
The `id` column is the list position and the `has_ascii_base` column is
written but never read back, so neither is carried here. -/
structure CharRow where
  character : Nat
  name : List Nat
  decomposition : List Nat
  is_latin : Bool
deriving DecidableEq, Inhabited

/-- Source `store_data_in_db` (lines 132-150): one row per input character,
`name = unicodedata.name(char, '')`, `is_latin = 1 if 'LATIN' in name`. -/
def store_data_in_db (db : UnicodeDB) (characters : List Nat) : List CharRow :=
  characters.map (fun ch =>
    let name := (db.uname ch).getD []
    { character := ch
      name := name
      decomposition := db.decompRaw ch
      is_latin := pyContains name sLATIN })

/-- Uppercase hexadecimal digit (code point) of `n < 16`. -/
def hexDigitCode (n : Nat) : Nat := if n < 10 then 48 + n else 55 + n

/-- Fuel-driven big-endian uppercase hexadecimal digits; empty for 0. -/
def hexDigitsAux : Nat → Nat → List Nat
  | 0, _ => []
  | fuel + 1, n =>
    if n = 0 then [] else hexDigitsAux fuel (n / 16) ++ [hexDigitCode (n % 16)]

def hexUpper (n : Nat) : List Nat := hexDigitsAux (n + 1) n

/-- Python `f"U+{ord(c):04X}"` (source lines 200, 269): `U+` followed by the
uppercase hexadecimal code point zero-padded to at least four digits. -/
def codePointLabel (c : Nat) : List Nat :=
  sUplus ++ List.replicate (4 - (hexUpper c).length) 48 ++ hexUpper c

/-- The per-element data computed by one iteration of the detailed
decomposition loops (source lines 198-210 and 267-277): the scalar value,
`char_name = unicodedata.name(c, 'UNKNOWN')`, `code_point`, and the
combining-mark flag that selects the formatting branch. -/
structure BreakdownEntry where
  scalar : Nat
  char_name : List Nat
  code_point : List Nat
  is_mark : Bool
deriving DecidableEq, Inhabited

def breakdownEntry (db : UnicodeDB) (c : Nat) : BreakdownEntry :=
  { scalar := c
    char_name := (db.uname c).getD sUNKNOWN
    code_point := codePointLabel c
    is_mark := isMark db c }

/-- Rendering of one entry into its part string (source lines 203-210):
combining marks are padded with `&nbsp;` on both sides, then
`f"{formatted_char} ({char_name}, {code_point})"`. -/
def renderEntry (e : BreakdownEntry) : List Nat :=
  (if e.is_mark then sNbsp ++ [e.scalar] ++ sNbsp else [e.scalar]) ++
    sParenOpen ++ e.char_name ++ sCommaSp ++ e.code_point ++ sParenClose

/-- Source lines 197-213 / 266-280: the `detailed_decomp` string, the part
strings joined by `' &nbsp;&nbsp;+&nbsp;&nbsp; '`. -/
def detailed_decomp_str (db : UnicodeDB) (cs : List Nat) : List Nat :=
  List.intercalate sSep (cs.map (fun c => renderEntry (breakdownEntry db c)))

/-- One output record.  Live-stream results (source line 217/219) have
`character = [ch]` for the original character; fixed-pattern results
(source line 282) have the two table scalar values. -/
structure DecompositionResult where
  character : List Nat
  base_char : List Nat
  diacritics : List Nat
  detailed_decomp : List Nat
deriving DecidableEq, Inhabited

/-- The record built by the body of the classification branch of
`analyze_characters` (source lines 186-219): base = `nfd_form[0]`,
diacritics = the category-M scalar values of the tail joined in order. -/
def mkResult (db : UnicodeDB) (ch : Nat) : DecompositionResult :=
  let nfd_form := db.nfd ch
  { character := [ch]
    base_char := [nfd_form.headD 0]
    diacritics := (nfd_form.drop 1).filter (fun c => isMark db c)
    detailed_decomp := detailed_decomp_str db nfd_form }

/-- The per-character decision of `analyze_characters` (source lines
170-186): `base_is_ascii and has_diacritic` holds exactly when
`len(nfd_form) > 1`, `nfd_form[0] in ASCII_LETTERS`, and the count of
category-M scalar values in `nfd_form[1:]` is positive. -/
def analyze_one (db : UnicodeDB) (ch : Nat) : Option DecompositionResult :=
  if 1 < (db.nfd ch).length ∧
      ASCII_LETTERS.contains ((db.nfd ch).headD 0) = true ∧
      0 < ((db.nfd ch).drop 1).countP (fun c => isMark db c)
  then some (mkResult db ch) else none

/-- The whole per-character path of the live pipeline: the `is_latin = 1`
SQL filter (source line 163) followed by the classification decision. -/
def classifyChar (db : UnicodeDB) (ch : Nat) : Option DecompositionResult :=
  if pyContains ((db.uname ch).getD []) sLATIN = true then analyze_one db ch
  else none

/-- The loop of `analyze_characters` (source lines 170-219): iterate the
Latin rows in order, appending each produced result to the
one-diacritic list when `len(diacritics) == 1` and to the two-or-more
list otherwise. -/
def analyzeLoop (db : UnicodeDB) :
    List CharRow → List DecompositionResult → List DecompositionResult →
      List DecompositionResult × List DecompositionResult
  | [], ones, twos => (ones, twos)
  | row :: rest, ones, twos =>
    match analyze_one db row.character with
    | none => analyzeLoop db rest ones twos
    | some res =>
      if res.diacritics.length = 1 then analyzeLoop db rest (ones ++ [res]) twos
      else analyzeLoop db rest ones (twos ++ [res])

/-- Source `analyze_characters` (lines 152-222): select the rows with
`is_latin = 1` in insertion order, then run the loop. -/
def analyze_characters (db : UnicodeDB) (rows : List CharRow) :
    List DecompositionResult × List DecompositionResult :=
  analyzeLoop db (rows.filter (fun r => r.is_latin)) [] []

/-- The static fixed-pattern table (source lines 232-247), each entry
`"U+XXXX U+YYYY"` parsed to its two code points as the source does with
`chr(int(cp[2:], 16))`. -/
def patterns : List (Nat × Nat) :=
  [(0x61, 0x331), (0x65, 0x331), (0x67, 0x303), (0x69, 0x331),
   (0x6D, 0x327), (0x6E, 0x304), (0x6E, 0x308), (0x6F, 0x327),
   (0x6F, 0x331), (0x72, 0x303), (0x1EB9, 0x300), (0x1EB9, 0x301),
   (0x1ECD, 0x300), (0x1ECD, 0x301)]

/-- Source `process_other_latin_lgr_occurrences` (lines 224-284): for every
table entry, unconditionally produce a record with `combined_char` the
concatenation of the two scalar values, base the first, diacritic the
second, and the same detailed-decomposition string construction as the
live path. -/
def process_other_latin_lgr_occurrences (db : UnicodeDB) :
    List DecompositionResult :=
  patterns.map (fun p =>
    { character := [p.1, p.2]
      base_char := [p.1]
      diacritics := [p.2]
      detailed_decomp := detailed_decomp_str db [p.1, p.2] })

/-- Count printed at source line 357 and §6 `countOneDiacritic`. -/
def countOneDiacritic (db : UnicodeDB) (characters : List Nat) : Nat :=
  (analyze_characters db (store_data_in_db db characters)).1.length

/-- Count printed at source line 358 and §6 `countTwoPlusDiacritics`. -/
def countTwoPlusDiacritics (db : UnicodeDB) (characters : List Nat) : Nat :=
  (analyze_characters db (store_data_in_db db characters)).2.length

/-- Count printed at source line 526: the length of the fixed-pattern
bucket. -/
def countOther (db : UnicodeDB) : Nat :=
  (process_other_latin_lgr_occurrences db).length

/-- Source line 596: `total_results = len(one_diacritic_results) +
len(two_diacritics_results)`. -/
def total_results (db : UnicodeDB) (characters : List Nat) : Nat :=
  (analyze_characters db (store_data_in_db db characters)).1.length +
    (analyze_characters db (store_data_in_db db characters)).2.length

/-- Per-character membership function for the one-diacritic bucket. -/
def liveOne (db : UnicodeDB) (ch : Nat) : Option DecompositionResult :=
  match classifyChar db ch with
  | none => none
  | some res => if res.diacritics.length = 1 then some res else none

/-- Per-character membership function for the two-or-more bucket. -/
def liveTwo (db : UnicodeDB) (ch : Nat) : Option DecompositionResult :=
  match classifyChar db ch with
  | none => none
  | some res => if res.diacritics.length = 1 then none else some res

/-- A small concrete oracle, faithful to the real Unicode data on the code
points it distinguishes: U+00E1 (a with acute, NFD a + U+0301), U+0061,
U+0301 (combining, category Mn), and U+0378 (unassigned: no name). -/
def dbStd : UnicodeDB where
  uname c :=
    if c = 0xE1 then some (strCodes ("LATIN SMALL LETTER A WITH ACUTE"))
    else if c = 0x61 then some (strCodes ("LATIN SMALL LETTER A"))
    else if c = 0x301 then some (strCodes ("COMBINING ACUTE ACCENT"))
    else none
  decompRaw c := if c = 0xE1 then strCodes ("0061 0301") else []
  nfd c := if c = 0xE1 then [0x61, 0x301] else [c]
  category c :=
    if c = 0x301 then strCodes ("Mn")
    else if c = 0x378 then strCodes ("Cn")
    else strCodes ("Ll")

/-! ## Helper lemmas about the pipeline -/

lemma analyze_one_eq_some {db : UnicodeDB} {ch : Nat} {res : DecompositionResult} :
    analyze_one db ch = some res ↔
      (1 < (db.nfd ch).length ∧
        ASCII_LETTERS.contains ((db.nfd ch).headD 0) = true ∧
        0 < ((db.nfd ch).drop 1).countP (fun c => isMark db c)) ∧
      res = mkResult db ch := by
  unfold analyze_one
  split
  · rename_i h
    simp only [Option.some.injEq]
    exact ⟨fun he => ⟨h, he.symm⟩, fun ⟨_, he⟩ => he.symm⟩
  · rename_i h
    simp only [reduceCtorEq, false_iff]
    intro hc
    exact h hc.1

lemma classifyChar_eq_some {db : UnicodeDB} {ch : Nat} {res : DecompositionResult} :
    classifyChar db ch = some res ↔
      (pyContains ((db.uname ch).getD []) sLATIN = true ∧
        1 < (db.nfd ch).length ∧
        ASCII_LETTERS.contains ((db.nfd ch).headD 0) = true ∧
        0 < ((db.nfd ch).drop 1).countP (fun c => isMark db c)) ∧
      res = mkResult db ch := by
  unfold classifyChar
  split
  · rename_i h
    rw [analyze_one_eq_some]
    constructor
    · rintro ⟨hg, he⟩
      exact ⟨⟨h, hg.1, hg.2.1, hg.2.2⟩, he⟩
    · rintro ⟨⟨_, h1, h2, h3⟩, he⟩
      exact ⟨⟨h1, h2, h3⟩, he⟩
  · rename_i h
    simp only [reduceCtorEq, false_iff]
    rintro ⟨⟨hl, _⟩, _⟩
    exact h hl

lemma classifyChar_isSome_iff {db : UnicodeDB} {ch : Nat} :
    (classifyChar db ch).isSome = true ↔
      pyContains ((db.uname ch).getD []) sLATIN = true ∧
      1 < (db.nfd ch).length ∧
      ASCII_LETTERS.contains ((db.nfd ch).headD 0) = true ∧
      0 < ((db.nfd ch).drop 1).countP (fun c => isMark db c) := by
  rw [Option.isSome_iff_exists]
  constructor
  · rintro ⟨res, hres⟩
    exact (classifyChar_eq_some.mp hres).1
  · intro hg
    exact ⟨mkResult db ch, classifyChar_eq_some.mpr ⟨hg, rfl⟩⟩

lemma classifyChar_eq_none_of_not_latin {db : UnicodeDB} {ch : Nat}
    (h : pyContains ((db.uname ch).getD []) sLATIN = false) :
    classifyChar db ch = none := by
  unfold classifyChar
  simp [h]

/-- The loop of `analyze_characters` over the stored-and-filtered rows is the
pair of order-preserving `filterMap`s of the per-character functions. -/
lemma analyzeLoop_store (db : UnicodeDB) (chars : List Nat)
    (ones twos : List DecompositionResult) :
    analyzeLoop db ((store_data_in_db db chars).filter (fun r => r.is_latin))
        ones twos =
      (ones ++ chars.filterMap (liveOne db), twos ++ chars.filterMap (liveTwo db)) := by
  induction chars generalizing ones twos with
  | nil => simp [store_data_in_db, analyzeLoop]
  | cons ch rest ih =>
    have hstore : store_data_in_db db (ch :: rest) =
        { character := ch
          name := (db.uname ch).getD []
          decomposition := db.decompRaw ch
          is_latin := pyContains ((db.uname ch).getD []) sLATIN } ::
          store_data_in_db db rest := rfl
    rw [hstore, List.filter_cons]
    cases hl : pyContains ((db.uname ch).getD []) sLATIN with
    | false =>
      have hc : classifyChar db ch = none := classifyChar_eq_none_of_not_latin hl
      simp only [hl, if_false, List.filterMap_cons, liveOne, liveTwo, hc]
      exact ih ones twos
    | true =>
      have hc : classifyChar db ch = analyze_one db ch := by
        unfold classifyChar; simp [hl]
      simp only [hl, if_true]
      show analyzeLoop db (_ :: _) ones twos = _
      cases ha : analyze_one db ch with
      | none =>
        simp only [analyzeLoop, ha, List.filterMap_cons, liveOne, liveTwo, hc]
        exact ih ones twos
      | some res =>
        by_cases h1 : res.diacritics.length = 1
        · simp only [analyzeLoop, ha, h1, if_true, List.filterMap_cons, liveOne,
            liveTwo, hc]
          rw [ih (ones ++ [res]) twos]
          simp
        · simp only [analyzeLoop, ha, h1, if_false, List.filterMap_cons, liveOne,
            liveTwo, hc]
          rw [ih ones (twos ++ [res])]
          simp

/-- The full live pipeline, characterized as two stable `filterMap`s over the
input sequence. -/
lemma analyze_store_eq (db : UnicodeDB) (chars : List Nat) :
    analyze_characters db (store_data_in_db db chars) =
      (chars.filterMap (liveOne db), chars.filterMap (liveTwo db)) := by
  unfold analyze_characters
  rw [analyzeLoop_store]
  simp

/-! ## Claims -/

/-- Claim C1, amended: every `DecompositionResult` produced by the Classifier
from the live character stream has a `baseCharacter` that is one of the 52
ASCII Latin letters; the Fixed-Pattern Expander performs no such check, and
exactly its last four table entries (bases U+1EB9 and U+1ECD) produce
results whose `baseCharacter` is not an ASCII letter. -/
theorem spec_C1 (db : UnicodeDB) (ch : Nat) (res : DecompositionResult)
    (h : classifyChar db ch = some res) :
    res.base_char = [(db.nfd ch).headD 0] ∧
    ASCII_LETTERS.contains ((db.nfd ch).headD 0) = true ∧
    (process_other_latin_lgr_occurrences db).map
        (fun r => r.base_char.all (fun b => ASCII_LETTERS.contains b)) =
      [true, true, true, true, true, true, true, true, true, true,
       false, false, false, false] := by
  obtain ⟨⟨_, _, h2, _⟩, he⟩ := classifyChar_eq_some.mp h
  subst he
  exact ⟨rfl, h2, rfl⟩

/-- Witness for C1 at U+00E1. -/
theorem spec_C1_witness :
    (mkResult dbStd 0xE1).base_char = [(dbStd.nfd 0xE1).headD 0] ∧
    ASCII_LETTERS.contains ((dbStd.nfd 0xE1).headD 0) = true ∧
    (process_other_latin_lgr_occurrences dbStd).map
        (fun r => r.base_char.all (fun b => ASCII_LETTERS.contains b)) =
      [true, true, true, true, true, true, true, true, true, true,
       false, false, false, false] :=
  spec_C1 dbStd 0xE1 (mkResult dbStd 0xE1) (by decide)

/-- Counterexample for C1 as stated: the 11th fixed-pattern result has
`baseCharacter` U+1EB9, which is not an ASCII Latin letter. -/
theorem spec_C1_counterexample :
    ((process_other_latin_lgr_occurrences dbStd).getD 10 default).base_char =
      [0x1EB9] ∧
    ASCII_LETTERS.contains 0x1EB9 = false := by decide

/-- Claim C2: for a live-stream character that passes all gates, the
diacritic sequence is exactly the category-M scalar values of the NFD tail
(as a multiset-preserving filter, so repeated marks of the same kind count
separately); category assignment is by that count alone (1 versus 2 or
more); non-M tail scalar values are excluded from the count and from the
diacritic sequence but still contribute a breakdown element whose
combining-mark flag is false. -/
theorem spec_C2 (db : UnicodeDB) (ch : Nat) (res : DecompositionResult)
    (h : classifyChar db ch = some res) :
    res.diacritics = ((db.nfd ch).drop 1).filter (fun c => isMark db c) ∧
    1 ≤ res.diacritics.length ∧
    (res.diacritics.length = 1 →
      analyze_characters db (store_data_in_db db [ch]) = ([res], [])) ∧
    (2 ≤ res.diacritics.length →
      analyze_characters db (store_data_in_db db [ch]) = ([], [res])) ∧
    (∀ c ∈ (db.nfd ch).drop 1, isMark db c = false →
      c ∉ res.diacritics ∧ (breakdownEntry db c).is_mark = false) ∧
    res.detailed_decomp =
      List.intercalate sSep
        (((db.nfd ch).map (breakdownEntry db)).map renderEntry) := by
  obtain ⟨⟨hl, h1, h2, h3⟩, he⟩ := classifyChar_eq_some.mp h
  have hres : res = mkResult db ch := he
  have hdia : res.diacritics = ((db.nfd ch).drop 1).filter (fun c => isMark db c) := by
    rw [hres]; rfl
  refine ⟨hdia, ?_, ?_, ?_, ?_, ?_⟩
  · rw [hdia, ← List.countP_eq_length_filter]
    exact h3
  · intro hone
    rw [analyze_store_eq]
    simp [liveOne, liveTwo, h, hone]
  · intro htwo
    have hne : ¬ res.diacritics.length = 1 := by omega
    rw [analyze_store_eq]
    simp [liveOne, liveTwo, h, hne]
  · intro c hc hnm
    refine ⟨?_, ?_⟩
    · rw [hdia]
      intro hmem
      have := (List.mem_filter.mp hmem).2
      rw [hnm] at this
      exact Bool.false_ne_true this
    · show isMark db c = false
      exact hnm
  · rw [hres]
    show detailed_decomp_str db (db.nfd ch) = _
    unfold detailed_decomp_str
    rw [List.map_map]
    rfl

/-- Witness for C2 at U+00E1 (one combining mark). -/
theorem spec_C2_witness :
    (mkResult dbStd 0xE1).diacritics =
      ((dbStd.nfd 0xE1).drop 1).filter (fun c => isMark dbStd c) ∧
    analyze_characters dbStd (store_data_in_db dbStd [0xE1]) =
      ([mkResult dbStd 0xE1], []) := by
  have h := spec_C2 dbStd 0xE1 (mkResult dbStd 0xE1) (by decide)
  exact ⟨h.1, h.2.2.1 (by decide)⟩

/-- Claim C3: the Classifier produces a result exactly when the four gates
pass (name contains LATIN, NFD longer than one scalar value, ASCII first
scalar value, at least one category-M scalar value in the tail); a failing
character is silently excluded from both live buckets, with no error
(every function of the model is total). -/
theorem spec_C3 (db : UnicodeDB) (ch : Nat) :
    ((classifyChar db ch).isSome = true ↔
      (pyContains ((db.uname ch).getD []) sLATIN = true ∧
        1 < (db.nfd ch).length ∧
        ASCII_LETTERS.contains ((db.nfd ch).headD 0) = true ∧
        ∃ c ∈ (db.nfd ch).drop 1, isMark db c = true)) ∧
    (classifyChar db ch = none →
      analyze_characters db (store_data_in_db db [ch]) = ([], [])) := by
  constructor
  · rw [classifyChar_isSome_iff, List.countP_pos_iff]
  · intro hn
    rw [analyze_store_eq]
    simp [liveOne, liveTwo, hn]

/-- Witness for C3: U+00E1 passes every gate and is classified; U+0061
(plain a, NFD of length one) fails the decomposition gate and the pipeline
on it yields two empty buckets. -/
theorem spec_C3_witness :
    (classifyChar dbStd 0xE1).isSome = true ∧
    analyze_characters dbStd (store_data_in_db dbStd [0x61]) = ([], []) := by
  refine ⟨(spec_C3 dbStd 0xE1).1.mpr ⟨by decide, by decide, by decide,
    ⟨0x301, by decide, by decide⟩⟩, (spec_C3 dbStd 0x61).2 (by decide)⟩

/-- Claim C4: for every entry of the static fixed-pattern table the expander
produces exactly one result, with `combinedCharacter` the concatenation of
the two scalar values, `baseCharacter` the first and `diacriticSequence`
exactly the second, with no ASCII or category-M gating and independently of
the live character input (the statement holds for every oracle `db`, so for
every behavior of the Unicode lookups); in particular the first entry
U+0061 U+0331 yields `combinedCharacter = "a̱"`, `baseCharacter = "a"`
and `diacriticSequence = "̱"`. -/
theorem spec_C4 (db : UnicodeDB) :
    (process_other_latin_lgr_occurrences db).map
        (fun r => (r.character, r.base_char, r.diacritics)) =
      [([0x61, 0x331], [0x61], [0x331]),
       ([0x65, 0x331], [0x65], [0x331]),
       ([0x67, 0x303], [0x67], [0x303]),
       ([0x69, 0x331], [0x69], [0x331]),
       ([0x6D, 0x327], [0x6D], [0x327]),
       ([0x6E, 0x304], [0x6E], [0x304]),
       ([0x6E, 0x308], [0x6E], [0x308]),
       ([0x6F, 0x327], [0x6F], [0x327]),
       ([0x6F, 0x331], [0x6F], [0x331]),
       ([0x72, 0x303], [0x72], [0x303]),
       ([0x1EB9, 0x300], [0x1EB9], [0x300]),
       ([0x1EB9, 0x301], [0x1EB9], [0x301]),
       ([0x1ECD, 0x300], [0x1ECD], [0x300]),
       ([0x1ECD, 0x301], [0x1ECD], [0x301])] := rfl

/-- Claim C5, amended: on a name-lookup miss the stored `CharacterRecord`
name is the empty string (the `''` default of source line 137), not the
sentinel `"UNKNOWN"`; the sentinel is used only for the names inside the
detailed breakdown (source line 199).  In both paths the miss degrades to
the default and classification continues without failing (the character is
then merely excluded, because the LATIN gate cannot pass on the empty
name). -/
theorem spec_C5 (db : UnicodeDB) (ch : Nat) :
    (db.uname ch = none →
      (store_data_in_db db [ch]).map (fun r => r.name) = [[]] ∧
      (breakdownEntry db ch).char_name = sUNKNOWN ∧
      classifyChar db ch = none) ∧
    (∀ nm, db.uname ch = some nm →
      (store_data_in_db db [ch]).map (fun r => r.name) = [nm] ∧
      (breakdownEntry db ch).char_name = nm) := by
  constructor
  · intro h
    refine ⟨by simp [store_data_in_db, h], by simp [breakdownEntry, h], ?_⟩
    apply classifyChar_eq_none_of_not_latin
    rw [h]
    decide
  · intro nm h
    exact ⟨by simp [store_data_in_db, h], by simp [breakdownEntry, h]⟩

/-- Witness for C5: U+0378 has no name in `dbStd`, U+0061 has one. -/
theorem spec_C5_witness :
    ((store_data_in_db dbStd [0x378]).map (fun r => r.name) = [[]] ∧
      (breakdownEntry dbStd 0x378).char_name = sUNKNOWN ∧
      classifyChar dbStd 0x378 = none) ∧
    ((store_data_in_db dbStd [0x61]).map (fun r => r.name) =
        [strCodes ("LATIN SMALL LETTER A")] ∧
      (breakdownEntry dbStd 0x61).char_name = strCodes ("LATIN SMALL LETTER A")) :=
  ⟨(spec_C5 dbStd 0x378).1 (by decide),
   (spec_C5 dbStd 0x61).2 (strCodes ("LATIN SMALL LETTER A")) (by decide)⟩

/-- Counterexample for C5 as stated: for the nameless character U+0378 the
stored record name is the empty string, which is not the claimed sentinel
`"UNKNOWN"`. -/
theorem spec_C5_counterexample :
    ((store_data_in_db dbStd [0x378]).getD 0 default).name = [] ∧
    ([] : List Nat) ≠ sUNKNOWN := by decide

/-- Claim C6, amended: `detailedBreakdown` is exposed as a single
pre-formatted markup string (the per-element part strings joined with an
`&nbsp;`-padded separator, combining marks additionally `&nbsp;`-padded);
that string is the rendering of one `(scalar, name, codePointLabel,
isCombiningMark)` record per element of the full decomposition, in
decomposition order, and the scalar components of those records in order
reproduce exactly the NFD form for live results and the table entry for
fixed-pattern results. -/
theorem spec_C6 (db : UnicodeDB) (ch : Nat) (res : DecompositionResult)
    (h : classifyChar db ch = some res) :
    res.detailed_decomp =
      List.intercalate sSep
        (((db.nfd ch).map (breakdownEntry db)).map renderEntry) ∧
    ((db.nfd ch).map (breakdownEntry db)).length = (db.nfd ch).length ∧
    ((db.nfd ch).map (breakdownEntry db)).map (fun e => e.scalar) = db.nfd ch ∧
    (process_other_latin_lgr_occurrences db).map (fun r => r.detailed_decomp) =
      patterns.map (fun p =>
        List.intercalate sSep
          (([p.1, p.2].map (breakdownEntry db)).map renderEntry)) ∧
    patterns.map
        (fun p => ([p.1, p.2].map (breakdownEntry db)).map (fun e => e.scalar)) =
      patterns.map (fun p => [p.1, p.2]) := by
  obtain ⟨_, he⟩ := classifyChar_eq_some.mp h
  subst he
  refine ⟨?_, by simp, ?_, rfl, rfl⟩
  · show detailed_decomp_str db (db.nfd ch) = _
    unfold detailed_decomp_str
    rw [List.map_map]
    rfl
  · rw [List.map_map]
    show (db.nfd ch).map (fun c => c) = db.nfd ch
    simp

/-- Witness for C6 at U+00E1. -/
theorem spec_C6_witness :
    (mkResult dbStd 0xE1).detailed_decomp =
      List.intercalate sSep
        (((dbStd.nfd 0xE1).map (breakdownEntry dbStd)).map renderEntry) ∧
    ((dbStd.nfd 0xE1).map (breakdownEntry dbStd)).map (fun e => e.scalar) =
      dbStd.nfd 0xE1 := by
  have h := spec_C6 dbStd 0xE1 (mkResult dbStd 0xE1) (by decide)
  exact ⟨h.1, h.2.2.1⟩

/-- Counterexample for C6 as stated: the classified result for U+00E1 has a
`detailedBreakdown` that is a flat string containing the HTML escape
`&nbsp;` — pre-formatted markup — and whose scalar-value content is not the
NFD form of the character. -/
theorem spec_C6_counterexample :
    classifyChar dbStd 0xE1 = some (mkResult dbStd 0xE1) ∧
    pyContains (mkResult dbStd 0xE1).detailed_decomp sNbsp = true ∧
    (mkResult dbStd 0xE1).detailed_decomp ≠ dbStd.nfd 0xE1 := by decide

/-- Claim C7: each live bucket is an order-preserving, duplicate-preserving
`filterMap` of the input sequence (a stable partition, not a sort), and
running the pipeline on a duplicated input duplicates the bucket contents
rather than deduplicating them. -/
theorem spec_C7 (db : UnicodeDB) (chars : List Nat) :
    analyze_characters db (store_data_in_db db chars) =
      (chars.filterMap (liveOne db), chars.filterMap (liveTwo db)) ∧
    analyze_characters db (store_data_in_db db (chars ++ chars)) =
      (chars.filterMap (liveOne db) ++ chars.filterMap (liveOne db),
       chars.filterMap (liveTwo db) ++ chars.filterMap (liveTwo db)) := by
  refine ⟨analyze_store_eq db chars, ?_⟩
  rw [analyze_store_eq, List.filterMap_append, List.filterMap_append]

/-- Claim C8: on the empty input sequence both live buckets are empty and
both live counts are zero, while the fixed-pattern count is the full size
of the static table (14), whatever the oracle, since the expander does not
read the live stream. -/
theorem spec_C8 (db : UnicodeDB) :
    countOneDiacritic db [] = 0 ∧
    countTwoPlusDiacritics db [] = 0 ∧
    analyze_characters db (store_data_in_db db []) = ([], []) ∧
    countOther db = 14 :=
  ⟨rfl, rfl, rfl, rfl⟩

/-- Claim C9: the reported total is the sum of the lengths of the two live
buckets (equivalently, of the two stable partitions of the input); the
fixed-pattern bucket count, always 14, is reported separately and does not
enter the total. -/
theorem spec_C9 (db : UnicodeDB) (chars : List Nat) :
    total_results db chars =
      countOneDiacritic db chars + countTwoPlusDiacritics db chars ∧
    total_results db chars =
      (chars.filterMap (liveOne db)).length +
        (chars.filterMap (liveTwo db)).length ∧
    countOther db = 14 := by
  refine ⟨rfl, ?_, rfl⟩
  unfold total_results
  rw [analyze_store_eq]

/-- Claim C10: a character for which the Unicode database has no canonical
name is never classified: its stored name is the empty default, the LATIN
substring gate fails on it, and the pipeline excludes it from both live
buckets. -/
theorem spec_C10 (db : UnicodeDB) (ch : Nat) (h : db.uname ch = none) :
    classifyChar db ch = none ∧
    analyze_characters db (store_data_in_db db [ch]) = ([], []) := by
  have hl : pyContains ((db.uname ch).getD []) sLATIN = false := by
    rw [h]; decide
  have hc := classifyChar_eq_none_of_not_latin hl
  refine ⟨hc, ?_⟩
  rw [analyze_store_eq]
  simp [liveOne, liveTwo, hc]

/-- Witness for C10 at the nameless code point U+0378. -/
theorem spec_C10_witness :
    classifyChar dbStd 0x378 = none ∧
    analyze_characters dbStd (store_data_in_db dbStd [0x378]) = ([], []) :=
  spec_C10 dbStd 0x378 (by decide)
